import Mathlib

/-!
# Verification of the GAIBA_Mkting bulk-email dispatcher (`src/App.py`)

This file shallowly embeds the core components of `App.py` in Lean:

* `EmailPersonalizer.extract_name_from_email` and
  `EmailPersonalizer.personalize_template` (pure string functions);
* `EmailHandler.send_single_email` and
  `EmailHandler.send_bulk_emails_improved` (the dispatch loop).

Python strings are modelled through their character lists (Lean 4 `String`
wraps `List Char`), and the Python built-ins used by the source
(`str.replace`, `str.split`, `str.capitalize`, membership tests, truthiness)
are given explicit executable models below.  Fallible code (a Python
expression that can raise, such as `name.split()[0]` on a whitespace-only
name) is modelled with `Option`, `none` standing for an uncaught exception.

External collaborators are parameters, exactly as the spec treats them:
the `email_validator` library behind `validate_email_address` is an abstract
predicate `validate : String → Bool`, and the SMTP session behind
`send_single_email`'s `try` block is an abstract
`transport : String → String → String → Bool → Bool × String` returning the
`(success, message)` pair the `try/except` produces.  UI/side-effect calls
(`st.*` progress widgets, `time.sleep`) are modelled by counters in the run
result.
-/

namespace GAIBA

/-- Characters Python's argument-less `str.split()` treats as whitespace. -/
def pyIsSpace (c : Char) : Bool :=
  c = ' ' || c = '\t' || c = '\n' || c = '\x0d' || c = '\x0b' || c = '\x0c'

/-- Fuel-indexed left-to-right, non-overlapping replacement scan over
character lists; with fuel ≥ length of the subject it is Python's
`str.replace` for a non-empty pattern (the source only replaces non-empty
literal patterns). -/
def listReplaceAux (old new : List Char) : Nat → List Char → List Char
  | 0, s => s
  | _ + 1, [] => []
  | fuel + 1, c :: rest =>
    if !old.isEmpty && old.isPrefixOf (c :: rest) then
      new ++ listReplaceAux old new fuel ((c :: rest).drop old.length)
    else
      c :: listReplaceAux old new fuel rest

/-- Python `s.replace(old, new)` for non-empty `old`. -/
def pyReplace (s old new : String) : String :=
  ⟨listReplaceAux old.data new.data s.data.length s.data⟩

/-- Whether `old` occurs as a contiguous substring of the subject. -/
def containsPat (old : List Char) : List Char → Bool
  | [] => false
  | c :: rest => old.isPrefixOf (c :: rest) || containsPat old rest

/-- Worker for `splitWs`: accumulates the current word (reversed). -/
def splitWsAux (cur : List Char) : List Char → List (List Char)
  | [] => if cur.isEmpty then [] else [cur.reverse]
  | c :: rest =>
    if pyIsSpace c then
      if cur.isEmpty then splitWsAux [] rest
      else cur.reverse :: splitWsAux [] rest
    else splitWsAux (c :: cur) rest

/-- Python's argument-less `str.split()`: split on whitespace runs,
dropping empty fragments. -/
def splitWs (s : List Char) : List (List Char) := splitWsAux [] s

/-- Python `str.capitalize()` restricted to the ASCII data the source feeds
it: first character upper-cased, the rest lower-cased. -/
def pyCapitalize : List Char → List Char
  | [] => []
  | c :: rest => c.toUpper :: rest.map Char.toLower

/-- Python string truthiness composed with `or`:
`s or d` for strings is `d` when `s` is empty, else `s`. -/
def pyOrStr (s d : String) : String := if s = "" then d else s

/-- `EmailPersonalizer.extract_name_from_email` (App.py lines 70–81):
take the local part before `'@'`, turn digits and `._-` into spaces, split,
keep fragments longer than one character, capitalize them, join with spaces,
and fall back to `"Valued Customer"` when nothing remains.  The source's
`try/except` never fires for string input, so no `Option` is needed. -/
def extract_name_from_email (email : String) : String :=
  let local_part := email.data.takeWhile (fun c => c ≠ '@')
  let name_part := local_part.map
    (fun c => if c.isDigit || c = '.' || c = '_' || c = '-' then ' ' else c)
  let name_parts := ((splitWs name_part).filter (fun p => p.length > 1)).map pyCapitalize
  if name_parts.isEmpty then "Valued Customer"
  else ⟨List.intercalate [' '] name_parts⟩

/-- The expression `name.split()[0] if name and ' ' in name else name`
opening `personalize_template` (App.py line 107).  It raises `IndexError`
when `name` is non-empty, contains a space, and consists only of whitespace
(then `name.split()` is `[]`); that exception is the `none` case. -/
def pyFirstName (name : String) : Option String :=
  if name != "" && name.data.contains ' ' then
    ((splitWs name.data).head?).map (fun w => (⟨w⟩ : String))
  else some name

/-- `EmailPersonalizer.personalize_template` (App.py lines 104–117): the
six `str.replace` calls run in source order once the first name is
computed; a raising first-name computation makes the whole call `none`. -/
def personalize_template (template name : String) (email : Option String) :
    Option String :=
  match pyFirstName name with
  | none => none
  | some first_name =>
    let p := pyReplace template "{name}" (pyOrStr name "Valued Customer")
    let p := pyReplace p "\x7b\x7bname\x7d\x7d" (pyOrStr name "Valued Customer")
    let p := pyReplace p "{first_name}" (pyOrStr first_name "Valued Customer")
    let p := pyReplace p "\x7b\x7bfirst_name\x7d\x7d" (pyOrStr first_name "Valued Customer")
    let p := pyReplace p "{email}" (email.getD "")
    let p := pyReplace p "\x7b\x7bemail\x7d\x7d" (email.getD "")
    some p

/-- One row of the contact table handed to the bulk sender: `row['email']`
and the optional `name` column (`row.get('name', default)` yields the
default exactly when the key is absent, hence `Option`). -/
structure Row where
  email : String
  name : Option String
deriving DecidableEq

/-- One entry of the `results` list built by the bulk loop
(the dict `{"email", "name", "status", "error"}` of App.py lines 215–231). -/
structure Outcome where
  email : String
  name : String
  status : String
  error : String
deriving DecidableEq

/-- The observable product of one bulk run: the `results` list, the three
running counters, and counters for the modelled side effects — calls into
`send_single_email` (`send_attempts`), `time.sleep(2)` executions
(`delays`), and per-iteration progress/metric updates (`progress_updates`). -/
structure RunResult where
  results : List Outcome
  sent_count : Nat
  failed_count : Nat
  invalid_count : Nat
  send_attempts : Nat
  delays : Nat
  progress_updates : Nat
deriving DecidableEq

/-- The handler's credential configuration: `self.email = GMAIL_USER` and
`self.password = GMAIL_APP_PASSWORD`, each `os.getenv`-shaped
(`none` = unset, `some ""` = set but empty — both falsy in Python). -/
structure EmailConfig where
  emailUser : Option String
  password : Option String
deriving DecidableEq

/-- Python truthiness of an `os.getenv` result. -/
def isTruthy : Option String → Bool
  | none => false
  | some s => s != ""

/-- The guard `not self.email or not self.password` used by both
`send_single_email` and `send_bulk_emails_improved`. -/
def credsMissingB (cfg : EmailConfig) : Bool :=
  !isTruthy cfg.emailUser || !isTruthy cfg.password

/-- Abstract model of the SMTP interaction inside `send_single_email`'s
`try` block: given recipient address, subject, body and the `is_html` flag
it yields `(True, "Success")` or `(False, str(exception))`. -/
abbrev Transport := String → String → String → Bool → Bool × String

/-- `EmailHandler.send_single_email` (App.py lines 135–159): missing
configuration short-circuits to `(False, "Email configuration missing")`;
otherwise the `try/except` outcome of the SMTP session, i.e. the transport. -/
def send_single_email (cfg : EmailConfig) (transport : Transport)
    (to_email subject body : String) (is_html : Bool) : Bool × String :=
  if credsMissingB cfg then (false, "Email configuration missing")
  else transport to_email subject body is_html

/-- The `for index, row in email_list.iterrows()` loop of
`send_bulk_emails_improved` (App.py lines 188–237), modelled recursively.
Per iteration: one progress update; if `validate_email_address` accepts the
address, resolve the name (`row.get('name', extract_name_from_email(...))`),
personalize body then subject (either may raise, making the whole run
`none`), call `send_single_email`, append a `sent`/`failed` entry and
`time.sleep(2)`; otherwise append the `invalid` entry with error
`"Invalid email format"`, with no send and no sleep. -/
def send_bulk_loop (cfg : EmailConfig) (transport : Transport)
    (validate : String → Bool) (subject body_template : String)
    (is_html : Bool) : List Row → Option RunResult
  | [] => some ⟨[], 0, 0, 0, 0, 0, 0⟩
  | row :: rest =>
    if validate row.email then
      let name := row.name.getD (extract_name_from_email row.email)
      match personalize_template body_template name (some row.email) with
      | none => none
      | some personalized_body =>
        match personalize_template subject name (some row.email) with
        | none => none
        | some personalized_subject =>
          let sres := send_single_email cfg transport row.email
            personalized_subject personalized_body is_html
          let entry : Outcome :=
            ⟨row.email, name, if sres.1 then "sent" else "failed",
             if sres.1 then "" else sres.2⟩
          match send_bulk_loop cfg transport validate subject body_template
              is_html rest with
          | none => none
          | some r =>
            some ⟨entry :: r.results,
                  (if sres.1 then 1 else 0) + r.sent_count,
                  (if sres.1 then 0 else 1) + r.failed_count,
                  r.invalid_count,
                  1 + r.send_attempts,
                  1 + r.delays,
                  1 + r.progress_updates⟩
    else
      match send_bulk_loop cfg transport validate subject body_template
          is_html rest with
      | none => none
      | some r =>
        some ⟨⟨row.email, row.name.getD "Unknown", "invalid",
               "Invalid email format"⟩ :: r.results,
              r.sent_count, r.failed_count, 1 + r.invalid_count,
              r.send_attempts, r.delays, 1 + r.progress_updates⟩

/-- `EmailHandler.send_bulk_emails_improved` (App.py lines 161–242):
the pre-flight credentials check returns an empty result table with no
progress reporting; otherwise the loop runs over the whole list.  `none`
models an uncaught exception escaping the call. -/
def send_bulk_emails_improved (cfg : EmailConfig) (transport : Transport)
    (validate : String → Bool) (email_list : List Row)
    (subject body_template : String) (is_html : Bool) : Option RunResult :=
  if credsMissingB cfg then some ⟨[], 0, 0, 0, 0, 0, 0⟩
  else send_bulk_loop cfg transport validate subject body_template is_html email_list

/-- The outcome entry the loop body records for one row, assuming its
processing does not raise (closed form used by the lemmas below). -/
def rowOutcome (cfg : EmailConfig) (transport : Transport)
    (validate : String → Bool) (subject body_template : String)
    (is_html : Bool) (row : Row) : Outcome :=
  if validate row.email then
    let name := row.name.getD (extract_name_from_email row.email)
    let pb := (personalize_template body_template name (some row.email)).getD ""
    let ps := (personalize_template subject name (some row.email)).getD ""
    let sres := send_single_email cfg transport row.email ps pb is_html
    ⟨row.email, name, if sres.1 then "sent" else "failed",
     if sres.1 then "" else sres.2⟩
  else ⟨row.email, row.name.getD "Unknown", "invalid", "Invalid email format"⟩

/-- Whether the loop body raises on this row: a validated address whose
resolved display name makes `personalize_template` raise. -/
def rowCrashes (validate : String → Bool) (subject body_template : String)
    (row : Row) : Bool :=
  validate row.email &&
    (let name := row.name.getD (extract_name_from_email row.email)
     (personalize_template body_template name (some row.email)).isNone ||
       (personalize_template subject name (some row.email)).isNone)

/-- Number of recorded entries whose `status` equals `s`. -/
def countStatus (s : String) (os : List Outcome) : Nat :=
  (os.filter (fun o => o.status == s)).length

/-- Closed form of a completed (non-raising) run of the loop, mirroring the
loop's branch structure recursively. -/
def expectedRun (cfg : EmailConfig) (transport : Transport)
    (validate : String → Bool) (subject body_template : String)
    (is_html : Bool) : List Row → RunResult
  | [] => ⟨[], 0, 0, 0, 0, 0, 0⟩
  | row :: rest =>
    let r := expectedRun cfg transport validate subject body_template is_html rest
    if validate row.email then
      let name := row.name.getD (extract_name_from_email row.email)
      let pb := (personalize_template body_template name (some row.email)).getD ""
      let ps := (personalize_template subject name (some row.email)).getD ""
      let sres := send_single_email cfg transport row.email ps pb is_html
      ⟨(⟨row.email, name, if sres.1 then "sent" else "failed",
         if sres.1 then "" else sres.2⟩ : Outcome) :: r.results,
       (if sres.1 then 1 else 0) + r.sent_count,
       (if sres.1 then 0 else 1) + r.failed_count,
       r.invalid_count,
       1 + r.send_attempts,
       1 + r.delays,
       1 + r.progress_updates⟩
    else
      ⟨(⟨row.email, row.name.getD "Unknown", "invalid",
         "Invalid email format"⟩ : Outcome) :: r.results,
       r.sent_count, r.failed_count, 1 + r.invalid_count,
       r.send_attempts, r.delays, 1 + r.progress_updates⟩

/-- A template containing none of the six placeholder tokens the source
replaces, in the source's replacement order: `{name}`, doubled-brace name,
`{first_name}`, doubled-brace first name, `{email}`, doubled-brace email. -/
def noPlaceholders (t : String) : Prop :=
  containsPat "{name}".data t.data = false ∧
    containsPat "\x7b\x7bname\x7d\x7d".data t.data = false ∧
    containsPat "{first_name}".data t.data = false ∧
    containsPat "\x7b\x7bfirst_name\x7d\x7d".data t.data = false ∧
    containsPat "{email}".data t.data = false ∧
    containsPat "\x7b\x7bemail\x7d\x7d".data t.data = false

instance (t : String) : Decidable (noPlaceholders t) := by
  unfold noPlaceholders; infer_instance

/-! Concrete fixtures used by witnesses and counterexamples. -/

/-- A configuration with both credentials set. -/
def demoCfg : EmailConfig := ⟨some "user@gmail.com", some "apppw"⟩

/-- A syntactic validity predicate standing in for `email_validator`:
accepts exactly the strings containing `'@'` (so it accepts `"a@x.com"` and
rejects `"not-an-email"`, the behaviours the spec fixes). -/
def demoValidate (s : String) : Bool := s.data.contains '@'

/-- A transport that always succeeds. -/
def okTransport : Transport := fun _ _ _ _ => (true, "Success")

/-- The spec §8 scenario transport: rejects `"a@x.com"` with reason
`"mailbox full"`, succeeds elsewhere. -/
def demoTransport : Transport :=
  fun dst _ _ _ => if dst = "a@x.com" then (false, "mailbox full") else (true, "Success")

/-- The spec §8 scenario recipients. -/
def demoRows : List Row := [⟨"a@x.com", none⟩, ⟨"bad", none⟩, ⟨"b@x.com", some "Bob Lee"⟩]

/-! ## Helper lemmas -/

lemma listReplaceAux_of_not_contains (old new : List Char) :
    ∀ s : List Char, containsPat old s = false →
      ∀ fuel, listReplaceAux old new fuel s = s := by
  intro s
  induction s with
  | nil => intro _ fuel; cases fuel <;> rfl
  | cons c rest ih =>
    intro h fuel
    have h' : old.isPrefixOf (c :: rest) = false ∧ containsPat old rest = false := by
      simpa [containsPat] using h
    cases fuel with
    | zero => rfl
    | succ f =>
      simp only [listReplaceAux, h'.1, Bool.and_false, Bool.false_eq_true,
        if_false]
      rw [ih h'.2 f]

lemma pyReplace_of_not_contains (s old new : String)
    (h : containsPat old.data s.data = false) : pyReplace s old new = s := by
  unfold pyReplace
  rw [listReplaceAux_of_not_contains old.data new.data s.data h]

lemma countStatus_cons (s : String) (o : Outcome) (l : List Outcome) :
    countStatus s (o :: l) = (if o.status == s then 1 else 0) + countStatus s l := by
  by_cases h : (o.status == s) = true
  · simp [countStatus, List.filter_cons, h, Nat.add_comm]
  · simp [countStatus, List.filter_cons, h]

section DispatchLemmas

variable (cfg : EmailConfig) (transport : Transport) (validate : String → Bool)
  (subject body_template : String) (is_html : Bool)

lemma expectedRun_results (rows : List Row) :
    (expectedRun cfg transport validate subject body_template is_html rows).results
      = rows.map (rowOutcome cfg transport validate subject body_template is_html) := by
  induction rows with
  | nil => rfl
  | cons row rest ih =>
    cases hv : validate row.email <;>
      simp [expectedRun, rowOutcome, hv, ih]

lemma expectedRun_sent (rows : List Row) :
    (expectedRun cfg transport validate subject body_template is_html rows).sent_count
      = countStatus "sent"
          (expectedRun cfg transport validate subject body_template is_html rows).results := by
  induction rows with
  | nil => rfl
  | cons row rest ih =>
    cases hv : validate row.email
    · simp [expectedRun, hv, countStatus_cons, ih]
    · simp only [expectedRun, hv, if_true]
      cases hs : (send_single_email cfg transport row.email
          ((personalize_template subject
              (row.name.getD (extract_name_from_email row.email)) (some row.email)).getD "")
          ((personalize_template body_template
              (row.name.getD (extract_name_from_email row.email)) (some row.email)).getD "")
          is_html).1 <;>
        simp [countStatus_cons, ih, hs]

lemma expectedRun_failed (rows : List Row) :
    (expectedRun cfg transport validate subject body_template is_html rows).failed_count
      = countStatus "failed"
          (expectedRun cfg transport validate subject body_template is_html rows).results := by
  induction rows with
  | nil => rfl
  | cons row rest ih =>
    cases hv : validate row.email
    · simp [expectedRun, hv, countStatus_cons, ih]
    · simp only [expectedRun, hv, if_true]
      cases hs : (send_single_email cfg transport row.email
          ((personalize_template subject
              (row.name.getD (extract_name_from_email row.email)) (some row.email)).getD "")
          ((personalize_template body_template
              (row.name.getD (extract_name_from_email row.email)) (some row.email)).getD "")
          is_html).1 <;>
        simp [countStatus_cons, ih, hs]

lemma expectedRun_invalid (rows : List Row) :
    (expectedRun cfg transport validate subject body_template is_html rows).invalid_count
      = countStatus "invalid"
          (expectedRun cfg transport validate subject body_template is_html rows).results := by
  induction rows with
  | nil => rfl
  | cons row rest ih =>
    cases hv : validate row.email
    · simp [expectedRun, hv, countStatus_cons, ih]
    · simp only [expectedRun, hv, if_true]
      cases hs : (send_single_email cfg transport row.email
          ((personalize_template subject
              (row.name.getD (extract_name_from_email row.email)) (some row.email)).getD "")
          ((personalize_template body_template
              (row.name.getD (extract_name_from_email row.email)) (some row.email)).getD "")
          is_html).1 <;>
        simp [countStatus_cons, ih, hs]

lemma expectedRun_attempts (rows : List Row) :
    (expectedRun cfg transport validate subject body_template is_html rows).send_attempts
      = (rows.filter (fun row => validate row.email)).length := by
  induction rows with
  | nil => rfl
  | cons row rest ih =>
    cases hv : validate row.email <;>
      simp [expectedRun, List.filter_cons, hv, ih, Nat.add_comm]

lemma expectedRun_delays (rows : List Row) :
    (expectedRun cfg transport validate subject body_template is_html rows).delays
      = (rows.filter (fun row => validate row.email)).length := by
  induction rows with
  | nil => rfl
  | cons row rest ih =>
    cases hv : validate row.email <;>
      simp [expectedRun, List.filter_cons, hv, ih, Nat.add_comm]

lemma expectedRun_progress (rows : List Row) :
    (expectedRun cfg transport validate subject body_template is_html rows).progress_updates
      = rows.length := by
  induction rows with
  | nil => rfl
  | cons row rest ih =>
    cases hv : validate row.email <;>
      simp [expectedRun, hv, ih, Nat.add_comm]

lemma expectedRun_sent_error (rows : List Row) :
    ∀ o ∈ (expectedRun cfg transport validate subject body_template is_html rows).results,
      o.status = "sent" → o.error = "" := by
  induction rows with
  | nil => intro o ho; simp [expectedRun] at ho
  | cons row rest ih =>
    intro o ho hsent
    cases hv : validate row.email
    · rw [expectedRun] at ho
      simp only [hv, Bool.false_eq_true, if_false, List.mem_cons] at ho
      rcases ho with ho | ho
      · rw [ho] at hsent; simp at hsent
      · exact ih o ho hsent
    · rw [expectedRun] at ho
      simp only [hv, if_true, List.mem_cons] at ho
      rcases ho with ho | ho
      · cases hs : (send_single_email cfg transport row.email
            ((personalize_template subject
                (row.name.getD (extract_name_from_email row.email)) (some row.email)).getD "")
            ((personalize_template body_template
                (row.name.getD (extract_name_from_email row.email)) (some row.email)).getD "")
            is_html).1
        · rw [ho] at hsent; simp [hs] at hsent
        · rw [ho]; simp [hs]
      · exact ih o ho hsent

lemma send_bulk_loop_eq_of_no_crash (rows : List Row)
    (hnc : ∀ row ∈ rows, rowCrashes validate subject body_template row = false) :
    send_bulk_loop cfg transport validate subject body_template is_html rows
      = some (expectedRun cfg transport validate subject body_template is_html rows) := by
  induction rows with
  | nil => rfl
  | cons row rest ih =>
    have hrow := hnc row (List.mem_cons_self row rest)
    have hrest := ih (fun x hx => hnc x (List.mem_cons_of_mem row hx))
    cases hv : validate row.email
    · simp [send_bulk_loop, expectedRun, hv, hrest]
    · simp only [rowCrashes, hv, Bool.true_and, Bool.or_eq_false_iff,
        Option.isNone_eq_false_iff, Option.isSome_iff_exists] at hrow
      obtain ⟨⟨pb, hpb⟩, ⟨ps, hps⟩⟩ := hrow
      simp [send_bulk_loop, expectedRun, hv, hpb, hps, hrest]

lemma send_bulk_loop_no_crash_of_some (rows : List Row) (r : RunResult)
    (h : send_bulk_loop cfg transport validate subject body_template is_html rows = some r) :
    ∀ row ∈ rows, rowCrashes validate subject body_template row = false := by
  induction rows generalizing r with
  | nil => intro row hrow; simp at hrow
  | cons row rest ih =>
    intro row' hrow'
    cases hv : validate row.email
    · rcases List.mem_cons.mp hrow' with hrw | hrw
      · subst hrw; simp [rowCrashes, hv]
      · rw [send_bulk_loop] at h
        simp only [hv, Bool.false_eq_true, if_false] at h
        cases hrest : send_bulk_loop cfg transport validate subject body_template
            is_html rest with
        | none => rw [hrest] at h; simp at h
        | some r' => exact ih r' hrest row' hrw
    · rw [send_bulk_loop] at h
      simp only [hv, if_true] at h
      cases hpb : personalize_template body_template
          (row.name.getD (extract_name_from_email row.email)) (some row.email) with
      | none => rw [hpb] at h; simp at h
      | some pb =>
        rw [hpb] at h
        cases hps : personalize_template subject
            (row.name.getD (extract_name_from_email row.email)) (some row.email) with
        | none => rw [hps] at h; simp at h
        | some ps =>
          rw [hps] at h
          simp only at h
          rcases List.mem_cons.mp hrow' with hrw | hrw
          · subst hrw; simp [rowCrashes, hv, hpb, hps]
          · cases hrest : send_bulk_loop cfg transport validate subject body_template
                is_html rest with
            | none => rw [hrest] at h; simp at h
            | some r' => exact ih r' hrest row' hrw

lemma send_bulk_loop_some_eq (rows : List Row) (r : RunResult)
    (h : send_bulk_loop cfg transport validate subject body_template is_html rows = some r) :
    r = expectedRun cfg transport validate subject body_template is_html rows := by
  have hnc := send_bulk_loop_no_crash_of_some cfg transport validate subject
    body_template is_html rows r h
  rw [send_bulk_loop_eq_of_no_crash cfg transport validate subject body_template
    is_html rows hnc] at h
  exact (Option.some_inj.mp h).symm

lemma send_bulk_some_eq (rows : List Row) (r : RunResult)
    (hc : credsMissingB cfg = false)
    (h : send_bulk_emails_improved cfg transport validate rows subject body_template
          is_html = some r) :
    r = expectedRun cfg transport validate subject body_template is_html rows := by
  rw [send_bulk_emails_improved, hc] at h
  exact send_bulk_loop_some_eq cfg transport validate subject body_template
    is_html rows r (by simpa using h)

lemma rowOutcome_email (row : Row) :
    (rowOutcome cfg transport validate subject body_template is_html row).email
      = row.email := by
  cases hv : validate row.email <;> simp [rowOutcome, hv]

lemma rowOutcome_status (row : Row) :
    (rowOutcome cfg transport validate subject body_template is_html row).status = "sent"
      ∨ (rowOutcome cfg transport validate subject body_template is_html row).status
          = "failed"
      ∨ (rowOutcome cfg transport validate subject body_template is_html row).status
          = "invalid" := by
  cases hv : validate row.email
  · simp [rowOutcome, hv]
  · simp only [rowOutcome, hv, if_true]
    split <;> simp

end DispatchLemmas

lemma countStatus_partition (l : List Outcome)
    (h : ∀ o ∈ l, o.status = "sent" ∨ o.status = "failed" ∨ o.status = "invalid") :
    countStatus "sent" l + countStatus "failed" l + countStatus "invalid" l
      = l.length := by
  induction l with
  | nil => rfl
  | cons o rest ih =>
    have ho := h o (List.mem_cons_self o rest)
    have hrest := ih (fun x hx => h x (List.mem_cons_of_mem o hx))
    rcases ho with h1 | h1 | h1 <;>
      simp [countStatus_cons, h1] <;> omega

lemma personalize_of_noPlaceholders (t n : String) (a : Option String)
    (ht : noPlaceholders t) :
    personalize_template t n a = none ∨ personalize_template t n a = some t := by
  obtain ⟨h1, h2, h3, h4, h5, h6⟩ := ht
  rcases hE : pyFirstName n with _ | fn
  · left
    simp [personalize_template, hE]
  · right
    simp only [personalize_template, hE]
    rw [pyReplace_of_not_contains _ _ _ h1, pyReplace_of_not_contains _ _ _ h2,
      pyReplace_of_not_contains _ _ _ h3, pyReplace_of_not_contains _ _ _ h4,
      pyReplace_of_not_contains _ _ _ h5, pyReplace_of_not_contains _ _ _ h6]

/-! ## Claim theorems -/

/-- C5 (code evaluated at the failing input): personalizing a template that
is exactly the doubled-brace name token yields the replacement value wrapped
in stray braces, not the bare value the single-brace form yields — the
source replaces `{name}` first, which fires inside the doubled-brace token
and leaves the dedicated doubled-brace replacement dead. -/
theorem C5_doubled_brace_failing_input :
    personalize_template "\x7b\x7bname\x7d\x7d" "Jane Doe" (some "jane@x.com")
        = some "\x7bJane Doe\x7d" ∧
      personalize_template "{name}" "Jane Doe" (some "jane@x.com")
        = some "Jane Doe" := by
  decide

/-- C7: `personalize("Hi {first_name}, {name} <{email}>", "Jane Doe",
"jane@x.com")` equals `"Hi Jane, Jane Doe <jane@x.com>"`, and a repeated
token is substituted at all of its occurrences. -/
theorem C7_token_substitution :
    personalize_template "Hi {first_name}, {name} <{email}>" "Jane Doe"
          (some "jane@x.com")
        = some "Hi Jane, Jane Doe <jane@x.com>" ∧
      personalize_template "{email} {email}" "Jane Doe" (some "jane@x.com")
        = some "jane@x.com jane@x.com" := by
  decide

/-- C8: name derivation satisfies the spec's two reference cases:
digits/separators stripped and fragments capitalized for
`"john.smith123@co.com"`, and the constant fallback for `"___@co.com"`. -/
theorem C8_name_derivation :
    extract_name_from_email "john.smith123@co.com" = "John Smith" ∧
      extract_name_from_email "___@co.com" = "Valued Customer" := by
  decide

/-- C9 (counterexample): personalization is not total — on the name `" "`
(non-empty, all whitespace, containing a space) `name.split()[0]` raises
`IndexError`, so the call fails even on a template with no placeholders. -/
theorem C9_counterexample :
    personalize_template "a plain template" " " (some "a@x.com") = none := by
  decide

/-- C9 (amended): when the template contains none of the recognized
placeholder tokens and personalization returns a value, that value is the
template itself, and personalizing again returns the same value
(idempotence); totality holds only conditionally on the call returning. -/
theorem C9_idempotence (t n : String) (a : Option String)
    (ht : noPlaceholders t) (v : String)
    (hv : personalize_template t n a = some v) :
    v = t ∧ personalize_template v n a = some v := by
  rcases personalize_of_noPlaceholders t n a ht with h | h
  · rw [h] at hv; cases hv
  · rw [h] at hv
    obtain rfl : t = v := Option.some_inj.mp hv
    exact ⟨rfl, h⟩

/-- C9 (witness): the amended idempotence theorem applied at the concrete
placeholder-free template `"a plain template"`. -/
theorem C9_witness :
    noPlaceholders "a plain template" ∧
      personalize_template "a plain template" "Jane Doe" (some "jane@x.com")
        = some "a plain template" ∧
      ("a plain template" = "a plain template" ∧
        personalize_template "a plain template" "Jane Doe" (some "jane@x.com")
          = some "a plain template") :=
  ⟨by decide, by decide,
    C9_idempotence "a plain template" "Jane Doe" (some "jane@x.com")
      (by decide) "a plain template" (by decide)⟩

/-- C1 (counterexample): with credentials present (so outside the
pre-flight-abort case), a single recipient with a valid address and the
present display name `" "` makes the run raise (`none`): no outcome log of
length one is produced, refuting "exactly one entry per input recipient
with the pre-flight abort as only exception". -/
theorem C1_counterexample :
    credsMissingB demoCfg = false ∧
      send_bulk_emails_improved demoCfg okTransport demoValidate
        [⟨"a@x.com", some " "⟩] "S" "B" true = none := by
  decide

/-- C1 (amended): whenever the bulk send returns a result table at all
(credentials present and no recipient's resolved display name makes
personalization raise), the table has exactly one entry per input
recipient, in exactly the input order. -/
theorem C1_order_exhaustive (cfg : EmailConfig) (transport : Transport)
    (validate : String → Bool) (rows : List Row)
    (subject body_template : String) (is_html : Bool) (r : RunResult)
    (hc : credsMissingB cfg = false)
    (h : send_bulk_emails_improved cfg transport validate rows subject
          body_template is_html = some r) :
    r.results.length = rows.length ∧
      r.results.map (fun o => o.email) = rows.map (fun row => row.email) := by
  have he := send_bulk_some_eq cfg transport validate subject body_template
    is_html rows r hc h
  subst he
  rw [expectedRun_results]
  refine ⟨by simp, ?_⟩
  simp [List.map_map, Function.comp, rowOutcome_email]

/-- C1 (witness): the amended theorem applied to the spec §8 scenario run. -/
theorem C1_witness :
    credsMissingB demoCfg = false ∧
      send_bulk_emails_improved demoCfg demoTransport demoValidate demoRows
          "S" "B" true
        = some ⟨[⟨"a@x.com", "Valued Customer", "failed", "mailbox full"⟩,
                 ⟨"bad", "Unknown", "invalid", "Invalid email format"⟩,
                 ⟨"b@x.com", "Bob Lee", "sent", ""⟩], 1, 1, 1, 2, 2, 3⟩ ∧
      (([⟨"a@x.com", "Valued Customer", "failed", "mailbox full"⟩,
         ⟨"bad", "Unknown", "invalid", "Invalid email format"⟩,
         ⟨"b@x.com", "Bob Lee", "sent", ""⟩] : List Outcome).length
          = demoRows.length ∧
        ([⟨"a@x.com", "Valued Customer", "failed", "mailbox full"⟩,
          ⟨"bad", "Unknown", "invalid", "Invalid email format"⟩,
          ⟨"b@x.com", "Bob Lee", "sent", ""⟩] : List Outcome).map (fun o => o.email)
          = demoRows.map (fun row => row.email)) :=
  ⟨by decide, by decide,
    C1_order_exhaustive demoCfg demoTransport demoValidate demoRows "S" "B" true
      ⟨[⟨"a@x.com", "Valued Customer", "failed", "mailbox full"⟩,
        ⟨"bad", "Unknown", "invalid", "Invalid email format"⟩,
        ⟨"b@x.com", "Bob Lee", "sent", ""⟩], 1, 1, 1, 2, 2, 3⟩
      (by decide) (by decide)⟩

/-- C2 (counterexample): the entry recorded for an invalid address carries
the error string `"Invalid email format"`, not the `"invalid address
format"` the claim states. -/
theorem C2_counterexample :
    Option.map (fun r => r.results)
        (send_bulk_emails_improved demoCfg okTransport demoValidate
          [⟨"not-an-email", none⟩] "S" "B" true)
        = some [⟨"not-an-email", "Unknown", "invalid", "Invalid email format"⟩] ∧
      ("Invalid email format" : String) ≠ "invalid address format" := by
  decide

/-- C2 (amended): a recipient whose address fails validation is recorded as
`invalid` with reason `"Invalid email format"`; transport sends and delays
are counted only for recipients passing validation, so the invalid
recipient triggers neither. -/
theorem C2_invalid_short_circuit (cfg : EmailConfig) (transport : Transport)
    (validate : String → Bool) (rows : List Row)
    (subject body_template : String) (is_html : Bool) (r : RunResult)
    (i : Nat) (row : Row)
    (hc : credsMissingB cfg = false)
    (h : send_bulk_emails_improved cfg transport validate rows subject
          body_template is_html = some r)
    (hi : rows[i]? = some row)
    (hvr : validate row.email = false) :
    r.results[i]?
        = some ⟨row.email, row.name.getD "Unknown", "invalid",
                "Invalid email format"⟩ ∧
      r.send_attempts = (rows.filter (fun x => validate x.email)).length ∧
      r.delays = (rows.filter (fun x => validate x.email)).length := by
  have he := send_bulk_some_eq cfg transport validate subject body_template
    is_html rows r hc h
  subst he
  refine ⟨?_,
    expectedRun_attempts cfg transport validate subject body_template is_html rows,
    expectedRun_delays cfg transport validate subject body_template is_html rows⟩
  rw [expectedRun_results, List.getElem?_map, hi]
  simp [rowOutcome, hvr]

/-- C2 (witness): the amended theorem applied to a one-recipient run with
the invalid address `"not-an-email"`. -/
theorem C2_witness :
    credsMissingB demoCfg = false ∧
      send_bulk_emails_improved demoCfg okTransport demoValidate
          [⟨"not-an-email", none⟩] "S" "B" true
        = some ⟨[⟨"not-an-email", "Unknown", "invalid", "Invalid email format"⟩],
                0, 0, 1, 0, 0, 1⟩ ∧
      (([⟨"not-an-email", "Unknown", "invalid", "Invalid email format"⟩]
            : List Outcome)[0]?
          = some ⟨"not-an-email", "Unknown", "invalid", "Invalid email format"⟩ ∧
        (0 : Nat) = (([⟨"not-an-email", none⟩] : List Row).filter
            (fun x => demoValidate x.email)).length ∧
        (0 : Nat) = (([⟨"not-an-email", none⟩] : List Row).filter
            (fun x => demoValidate x.email)).length) :=
  ⟨by decide, by decide,
    C2_invalid_short_circuit demoCfg okTransport demoValidate
      [⟨"not-an-email", none⟩] "S" "B" true
      ⟨[⟨"not-an-email", "Unknown", "invalid", "Invalid email format"⟩],
       0, 0, 1, 0, 0, 1⟩
      0 ⟨"not-an-email", none⟩ (by decide) (by decide) (by decide) (by decide)⟩

/-- C3 (counterexample): a run that has started (credentials present, first
recipient processed) does not always complete: a later valid-address
recipient whose present display name is `" "` makes personalization raise,
aborting the run with no report, refuting "once the run starts it always
completes through the entire recipient list and returns a report". -/
theorem C3_counterexample :
    credsMissingB demoCfg = false ∧
      send_bulk_emails_improved demoCfg okTransport demoValidate
        [⟨"a@x.com", some "Ann Lee"⟩, ⟨"b@x.com", some " "⟩] "S" "B" true
        = none := by
  decide

/-- C3 (amended): the fatal pre-flight condition (missing credentials)
yields zero outcome entries and zero progress updates; with credentials
present, per-recipient delivery failures are non-fatal — for every
transport behaviour the run completes with one entry per recipient —
provided no valid recipient's resolved display name makes personalization
raise. -/
theorem C3_fatal_abort_nonfatal_failures (cfg : EmailConfig)
    (transport : Transport) (validate : String → Bool) (rows : List Row)
    (subject body_template : String) (is_html : Bool) :
    (credsMissingB cfg = true →
        send_bulk_emails_improved cfg transport validate rows subject
          body_template is_html = some ⟨[], 0, 0, 0, 0, 0, 0⟩) ∧
      (credsMissingB cfg = false →
        (∀ row ∈ rows, rowCrashes validate subject body_template row = false) →
        ∃ r, send_bulk_emails_improved cfg transport validate rows subject
              body_template is_html = some r ∧
            r.results.length = rows.length) := by
  constructor
  · intro hc
    simp [send_bulk_emails_improved, hc]
  · intro hc hnc
    refine ⟨expectedRun cfg transport validate subject body_template is_html rows,
      ?_, ?_⟩
    · simp [send_bulk_emails_improved, hc,
        send_bulk_loop_eq_of_no_crash cfg transport validate subject
          body_template is_html rows hnc]
    · rw [expectedRun_results]
      simp

/-- C3 (witness): the amended theorem applied once with a missing password
(pre-flight abort) and once to the spec §8 scenario (completed run of
length three despite a delivery failure). -/
theorem C3_witness :
    (credsMissingB ⟨some "user@gmail.com", none⟩ = true ∧
        send_bulk_emails_improved ⟨some "user@gmail.com", none⟩ okTransport
          demoValidate demoRows "S" "B" true = some ⟨[], 0, 0, 0, 0, 0, 0⟩) ∧
      (credsMissingB demoCfg = false ∧
        (∀ row ∈ demoRows, rowCrashes demoValidate "S" "B" row = false) ∧
        ∃ r, send_bulk_emails_improved demoCfg demoTransport demoValidate
              demoRows "S" "B" true = some r ∧
            r.results.length = demoRows.length) :=
  ⟨⟨by decide,
      (C3_fatal_abort_nonfatal_failures ⟨some "user@gmail.com", none⟩
          okTransport demoValidate demoRows "S" "B" true).1 (by decide)⟩,
    ⟨by decide, by decide,
      (C3_fatal_abort_nonfatal_failures demoCfg demoTransport demoValidate
          demoRows "S" "B" true).2 (by decide) (by decide)⟩⟩

/-- C4 (counterexample): on the three-recipient run where the second
recipient is invalid and the others are valid, exactly two delay intervals
elapse (after recipients 1 and 3), not one — the source sleeps after every
validated recipient, including the last. -/
theorem C4_counterexample :
    Option.map (fun r => r.delays)
        (send_bulk_emails_improved demoCfg demoTransport demoValidate demoRows
          "S" "B" true)
        = some 2 ∧
      (2 : Nat) ≠ 1 := by
  decide

/-- C4 (amended): the inter-send delay is applied exactly once per
recipient passing address validation — including the last one — and never
for recipients classified invalid; the delay count of a completed run is
the number of validated recipients. -/
theorem C4_delay_per_validated (cfg : EmailConfig) (transport : Transport)
    (validate : String → Bool) (rows : List Row)
    (subject body_template : String) (is_html : Bool) (r : RunResult)
    (hc : credsMissingB cfg = false)
    (h : send_bulk_emails_improved cfg transport validate rows subject
          body_template is_html = some r) :
    r.delays = (rows.filter (fun row => validate row.email)).length := by
  have he := send_bulk_some_eq cfg transport validate subject body_template
    is_html rows r hc h
  subst he
  exact expectedRun_delays cfg transport validate subject body_template is_html rows

/-- C4 (witness): the amended theorem applied to the spec §8 scenario,
where two of the three recipients validate and the delay count is two. -/
theorem C4_witness :
    credsMissingB demoCfg = false ∧
      send_bulk_emails_improved demoCfg demoTransport demoValidate demoRows
          "S" "B" true
        = some ⟨[⟨"a@x.com", "Valued Customer", "failed", "mailbox full"⟩,
                 ⟨"bad", "Unknown", "invalid", "Invalid email format"⟩,
                 ⟨"b@x.com", "Bob Lee", "sent", ""⟩], 1, 1, 1, 2, 2, 3⟩ ∧
      (2 : Nat) = (demoRows.filter (fun row => demoValidate row.email)).length :=
  ⟨by decide, by decide,
    C4_delay_per_validated demoCfg demoTransport demoValidate demoRows "S" "B"
      true
      ⟨[⟨"a@x.com", "Valued Customer", "failed", "mailbox full"⟩,
        ⟨"bad", "Unknown", "invalid", "Invalid email format"⟩,
        ⟨"b@x.com", "Bob Lee", "sent", ""⟩], 1, 1, 1, 2, 2, 3⟩
      (by decide) (by decide)⟩

/-- C6 (counterexample): a present-but-empty `name` field is used as the
display name: the recorded entry's name is `""`, not the address-derived
`"John Smith"`, and the `{name}` token is then rendered as the
`"Valued Customer"` fallback rather than the derived name. -/
theorem C6_counterexample :
    Option.map (fun r => r.results)
        (send_bulk_emails_improved demoCfg okTransport demoValidate
          [⟨"john.smith@co.com", some ""⟩] "S" "{name}" true)
        = some [⟨"john.smith@co.com", "", "sent", ""⟩] ∧
      extract_name_from_email "john.smith@co.com" = "John Smith" ∧
      personalize_template "{name}" "" (some "john.smith@co.com")
        = some "Valued Customer" := by
  decide

/-- C6 (amended): for every validated recipient, the display name recorded
(and fed to personalization) is the `name` field whenever that field is
present — even when it is empty — and is derived from the address only when
the field is absent. -/
theorem C6_name_resolution (cfg : EmailConfig) (transport : Transport)
    (validate : String → Bool) (rows : List Row)
    (subject body_template : String) (is_html : Bool) (r : RunResult)
    (i : Nat) (row : Row)
    (hc : credsMissingB cfg = false)
    (h : send_bulk_emails_improved cfg transport validate rows subject
          body_template is_html = some r)
    (hi : rows[i]? = some row)
    (hvr : validate row.email = true) :
    Option.map (fun o => o.name) r.results[i]?
      = some (row.name.getD (extract_name_from_email row.email)) := by
  have he := send_bulk_some_eq cfg transport validate subject body_template
    is_html rows r hc h
  subst he
  rw [expectedRun_results, List.getElem?_map, hi]
  simp [rowOutcome, hvr]

/-- C6 (witness): the amended theorem applied to a one-recipient run whose
name field is present and empty — the empty string is what gets recorded. -/
theorem C6_witness :
    credsMissingB demoCfg = false ∧
      send_bulk_emails_improved demoCfg okTransport demoValidate
          [⟨"john.smith@co.com", some ""⟩] "S" "B" true
        = some ⟨[⟨"john.smith@co.com", "", "sent", ""⟩], 1, 0, 0, 1, 1, 1⟩ ∧
      Option.map (fun o => o.name)
          (([⟨"john.smith@co.com", "", "sent", ""⟩] : List Outcome)[0]?)
        = some ((some "").getD (extract_name_from_email "john.smith@co.com")) :=
  ⟨by decide, by decide,
    C6_name_resolution demoCfg okTransport demoValidate
      [⟨"john.smith@co.com", some ""⟩] "S" "B" true
      ⟨[⟨"john.smith@co.com", "", "sent", ""⟩], 1, 0, 0, 1, 1, 1⟩
      0 ⟨"john.smith@co.com", some ""⟩ (by decide) (by decide) (by decide)
      (by decide)⟩

/-- C10: after processing any prefix of the recipient list (any completed
run on `rows.take k`), the three counters sum to the number of recorded
entries, each counter equals the number of entries bearing its status, and
every `sent` entry has an empty error field. -/
theorem C10_counter_invariant (cfg : EmailConfig) (transport : Transport)
    (validate : String → Bool) (rows : List Row)
    (subject body_template : String) (is_html : Bool) (k : Nat) (r : RunResult)
    (h : send_bulk_emails_improved cfg transport validate (rows.take k) subject
          body_template is_html = some r) :
    r.sent_count + r.failed_count + r.invalid_count = r.results.length ∧
      r.sent_count = countStatus "sent" r.results ∧
      r.failed_count = countStatus "failed" r.results ∧
      r.invalid_count = countStatus "invalid" r.results ∧
      (∀ o ∈ r.results, o.status = "sent" → o.error = "") := by
  cases hc : credsMissingB cfg
  · have he := send_bulk_some_eq cfg transport validate subject body_template
      is_html (rows.take k) r hc h
    subst he
    have hmem : ∀ o ∈ (expectedRun cfg transport validate subject body_template
        is_html (rows.take k)).results,
        o.status = "sent" ∨ o.status = "failed" ∨ o.status = "invalid" := by
      rw [expectedRun_results]
      intro o ho
      obtain ⟨row, _, rfl⟩ := List.mem_map.mp ho
      exact rowOutcome_status cfg transport validate subject body_template
        is_html row
    refine ⟨?_,
      expectedRun_sent cfg transport validate subject body_template is_html
        (rows.take k),
      expectedRun_failed cfg transport validate subject body_template is_html
        (rows.take k),
      expectedRun_invalid cfg transport validate subject body_template is_html
        (rows.take k),
      expectedRun_sent_error cfg transport validate subject body_template
        is_html (rows.take k)⟩
    rw [expectedRun_sent cfg transport validate subject body_template is_html
        (rows.take k),
      expectedRun_failed cfg transport validate subject body_template is_html
        (rows.take k),
      expectedRun_invalid cfg transport validate subject body_template is_html
        (rows.take k)]
    exact countStatus_partition _ hmem
  · rw [send_bulk_emails_improved, hc] at h
    simp only [if_true, Option.some_inj] at h
    subst h
    refine ⟨rfl, rfl, rfl, rfl, ?_⟩
    intro o ho
    simp at ho

/-- C10 (witness): the invariant applied to the length-two prefix of the
spec §8 scenario (one failed, one invalid entry). -/
theorem C10_witness :
    send_bulk_emails_improved demoCfg demoTransport demoValidate
          (demoRows.take 2) "S" "B" true
        = some ⟨[⟨"a@x.com", "Valued Customer", "failed", "mailbox full"⟩,
                 ⟨"bad", "Unknown", "invalid", "Invalid email format"⟩],
                0, 1, 1, 1, 1, 2⟩ ∧
      ((0 : Nat) + 1 + 1
          = ([⟨"a@x.com", "Valued Customer", "failed", "mailbox full"⟩,
              ⟨"bad", "Unknown", "invalid", "Invalid email format"⟩]
              : List Outcome).length ∧
        (0 : Nat) = countStatus "sent"
            [⟨"a@x.com", "Valued Customer", "failed", "mailbox full"⟩,
             ⟨"bad", "Unknown", "invalid", "Invalid email format"⟩] ∧
        (1 : Nat) = countStatus "failed"
            [⟨"a@x.com", "Valued Customer", "failed", "mailbox full"⟩,
             ⟨"bad", "Unknown", "invalid", "Invalid email format"⟩] ∧
        (1 : Nat) = countStatus "invalid"
            [⟨"a@x.com", "Valued Customer", "failed", "mailbox full"⟩,
             ⟨"bad", "Unknown", "invalid", "Invalid email format"⟩] ∧
        (∀ o ∈ ([⟨"a@x.com", "Valued Customer", "failed", "mailbox full"⟩,
                 ⟨"bad", "Unknown", "invalid", "Invalid email format"⟩]
                : List Outcome),
          o.status = "sent" → o.error = "")) :=
  ⟨by decide,
    C10_counter_invariant demoCfg demoTransport demoValidate demoRows "S" "B"
      true 2
      ⟨[⟨"a@x.com", "Valued Customer", "failed", "mailbox full"⟩,
        ⟨"bad", "Unknown", "invalid", "Invalid email format"⟩],
       0, 1, 1, 1, 1, 2⟩
      (by decide)⟩

end GAIBA
